import Mathlib

/-!
# Account store of `main.go`: insert, lookup and balance transfer

The program talks to a PostgreSQL table `users` through `sqlx`.  The Go
functions `InsertUser`, `GetAllUsers`, `GetUserByID` and `TransferBalance` are
embedded as state-passing functions over an explicit store: every function
takes the store it runs against and returns the Go result together with the
store it leaves behind.

* Balances in the store and amounts are exact numbers (`Rat`).  The program
  holds a balance it has read as a `float64`: the conversion made by the
  balance read of `TransferBalance` (lines 63 and 64) is the argument `scan` of
  `TransferBalance.scanning`, and `float64` below is that conversion.
  `TransferBalance` is the function with balances taken as exact numbers: the
  read returns the stored balance.  The values NaN and the infinities of
  `float64` are outside the embedding.
* A Go `error` is a value of `Error`; `nil` is `none`.
* The store is external to the program.  Its statements are modelled in the
  section "The store" below: a table with committed rows, the transactions
  that are open on it, each with the rows as it sees them until `Commit` or
  `Rollback` ends it, and, for every call, an optional failure reported by the
  store (connection loss, lock timeout, ...), given by the caller of the model
  as an error code.
-/

namespace Practice4

/-! ## Data model -/

/-- Go struct `User`, one row of table `users`. -/
structure User where
  ID : Int
  Name : String
  Email : String
  Balance : Rat
deriving DecidableEq, Repr

/-- The zero value of `User` (Go `var user User`). -/
def User.zero : User := ⟨0, "", "", 0⟩

/-- An operand of a format string. -/
inductive Arg where
  | int (i : Int)
  | float (x : Rat)
deriving DecidableEq, Repr

/-- Go `error` values met by the program.  `Errorf` is `fmt.Errorf` with a
format and its operands and no `%w` verb; `Wrap` is `fmt.Errorf` whose only
operand is an error formatted with `%w`. -/
inductive Error where
  | ErrNoRows
  | ErrTxDone
  | store (code : Nat)
  | Errorf (format : String) (args : List Arg)
  | Wrap (format : String) (cause : Error)
deriving DecidableEq, Repr

/-- Go `errors.Unwrap`. -/
def Error.Unwrap : Error → Option Error
  | .Wrap _ cause => some cause
  | _ => none

/-! ## The float64 value of a stored number -/

/-- The power `2 ^ e` for an integer `e`. -/
def pow2 (e : Int) : Rat :=
  if 0 ≤ e then ((2 ^ e.toNat : Nat) : Rat) else 1 / ((2 ^ (-e).toNat : Nat) : Rat)

/-- The integer nearest to `q`, the even one of the two when `q` is half way. -/
def roundHalfEven (q : Rat) : Int :=
  if q - Rat.floor q < 1 / 2 then Rat.floor q
  else if 1 / 2 < q - Rat.floor q then Rat.floor q + 1
  else if Rat.floor q % 2 = 0 then Rat.floor q
  else Rat.floor q + 1

/-- The number of times `n` can be halved before it is below 2, at most `fuel` times. -/
def halvings : Nat → Nat → Nat
  | 0, _ => 0
  | fuel + 1, n => if n < 2 then 0 else halvings fuel (n / 2) + 1

/-- The binary logarithm of `n`, rounded down (0 for `n = 0`). -/
def log2floor (n : Nat) : Nat := halvings n n

/-- The binary exponent of a nonzero `q`: the `e` with `2 ^ e ≤ |q| < 2 ^ (e + 1)`,
which is the difference of the logarithms of numerator and denominator or one
less, and `-1022` when that is lower (subnormal range). -/
def binaryExponent (q : Rat) : Int :=
  max
    (if pow2 ((log2floor q.num.natAbs : Int) - (log2floor q.den : Int)) ≤
        (if q < 0 then -q else q)
      then (log2floor q.num.natAbs : Int) - (log2floor q.den : Int)
      else (log2floor q.num.natAbs : Int) - (log2floor q.den : Int) - 1)
    (-1022)

/-- The `float64` a decimal number is read into (`strconv.ParseFloat`, IEEE 754
round to nearest, ties to even, 53 bits), as an exact number.  Numbers of
magnitude `2 ^ 1024` and more have no `float64`: reading them fails in the
program. -/
def float64 (q : Rat) : Rat :=
  if q = 0 then 0
  else roundHalfEven (q / pow2 (binaryExponent q - 52)) * pow2 (binaryExponent q - 52)

/-! ## The store -/

/-- The statements the program sends to the store. -/
inductive Stmt where
  | insertUser (name email : String) (balance : Rat)
  | selectAll
  | selectByID (id : Int)
  | selectBalanceForUpdate (id : Int)
  | subBalance (amount : Rat) (id : Int)
  | addBalance (amount : Rat) (id : Int)
  | beginTx
  | commitTx
  | rollbackTx
deriving DecidableEq, Repr

/-- The store: the committed rows of `users`, the next value of the id
sequence, the statements issued to the store so far, and the transactions
that are open (begun and neither committed nor rolled back), the latest
first, each as the rows it sees: the committed rows at its start with its own
updates.  The program is sequential: it works on the transaction it opened
last. -/
structure DB where
  rows : List User
  nextID : Int
  log : List Stmt
  pending : List (List User)
deriving DecidableEq, Repr

/-- A transaction handle of the program: whether it has been ended by `Commit`
or `Rollback`. -/
structure Tx where
  done : Bool
deriving DecidableEq, Repr

/-- Result of `SELECT ... FROM users WHERE id = $1` read with `Get`: the first matching row. -/
def lookup (rows : List User) (id : Int) : Option User :=
  rows.find? (fun u => decide (u.ID = id))

/-- Result of `UPDATE users SET balance = f(balance) WHERE id = $2`: every row
whose id matches gets the new balance, the other rows are untouched. -/
def setBalance (f : Rat → Rat) (id : Int) (rows : List User) : List User :=
  rows.map (fun u => if u.ID = id then User.mk u.ID u.Name u.Email (f u.Balance) else u)

/-- The effect of an update statement on the rows. -/
def applyStmt : Stmt → List User → List User
  | .subBalance amount id, rows => setBalance (fun b => b - amount) id rows
  | .addBalance amount id, rows => setBalance (fun b => b + amount) id rows
  | _, rows => rows

/-- Record that a statement was sent to the store. -/
def DB.issue (db : DB) (s : Stmt) : DB := ⟨db.rows, db.nextID, db.log ++ [s], db.pending⟩

/-- The error the store reports for a call, if it fails. -/
def storeFailure (fault : Option Nat) : Option Error := fault.map Error.store

/-- Modelled from the spec: the schema of table `users` is not in the source;
the spec gives `id` as an integer primary key assigned by the store on
creation.  `db.NamedExec` of the insert statement: the store takes the next
value of the id sequence; a row is added unless the store fails or the key is
already taken (unique violation, SQLSTATE 23505). -/
def DB.NamedExec (db : DB) (fault : Option Nat) (name email : String) (balance : Rat) :
    Option Error × DB :=
  let log := db.log ++ [Stmt.insertUser name email balance]
  match fault with
  | some c => (some (.store c), ⟨db.rows, db.nextID, log, db.pending⟩)
  | none =>
    if db.nextID ∈ db.rows.map User.ID then
      (some (.store 23505), ⟨db.rows, db.nextID + 1, log, db.pending⟩)
    else
      (none, ⟨db.rows ++ [User.mk db.nextID name email balance], db.nextID + 1, log,
        db.pending⟩)

/-- Call `db.Select` of `SELECT id, name, email, balance FROM users`. -/
def DB.Select (db : DB) (fault : Option Nat) : Except Error (List User) × DB :=
  match fault with
  | some c => (.error (.store c), db.issue .selectAll)
  | none => (.ok db.rows, db.issue .selectAll)

/-- Call `db.Get` of `SELECT id, name, email, balance FROM users WHERE id = $1`:
the first matching row, `sql.ErrNoRows` when there is none. -/
def DB.Get (db : DB) (fault : Option Nat) (id : Int) : Except Error User × DB :=
  match fault with
  | some c => (.error (.store c), db.issue (.selectByID id))
  | none =>
    match lookup db.rows id with
    | none => (.error .ErrNoRows, db.issue (.selectByID id))
    | some u => (.ok u, db.issue (.selectByID id))

/-- Call `db.Beginx`: a new open transaction that sees the committed rows. -/
def DB.Beginx (db : DB) (fault : Option Nat) : Except Error Tx × DB :=
  match fault with
  | some c => (.error (.store c), db.issue .beginTx)
  | none =>
    (.ok ⟨false⟩, ⟨db.rows, db.nextID, db.log ++ [Stmt.beginTx], db.rows :: db.pending⟩)

/-- Call `tx.Get` of `SELECT balance FROM users WHERE id = $1 FOR UPDATE` into a
`float64`: the balance of the first matching row as the transaction sees it,
converted by `scan`; `sql.ErrNoRows` when there is no such row. -/
def Tx.Get (scan : Rat → Rat) (tx : Tx) (db : DB) (fault : Option Nat) (id : Int) :
    Except Error Rat × DB :=
  if tx.done then (.error .ErrTxDone, db)
  else
    match fault with
    | some c => (.error (.store c), db.issue (.selectBalanceForUpdate id))
    | none =>
      match db.pending with
      | [] => (.error .ErrTxDone, db)
      | view :: _ =>
        match lookup view id with
        | none => (.error .ErrNoRows, db.issue (.selectBalanceForUpdate id))
        | some u => (.ok (scan u.Balance), db.issue (.selectBalanceForUpdate id))

/-- Call `tx.Exec` of an update statement: it changes the rows the open
transaction sees and not the committed rows; a statement that matches no row
succeeds and changes nothing; a failed statement changes nothing and leaves
the transaction open. -/
def Tx.Exec (tx : Tx) (db : DB) (fault : Option Nat) (s : Stmt) : Option Error × Tx × DB :=
  if tx.done then (some .ErrTxDone, tx, db)
  else
    match fault with
    | some c => (some (.store c), tx, db.issue s)
    | none =>
      match db.pending with
      | [] => (some .ErrTxDone, tx, db)
      | view :: rest =>
        (none, tx, ⟨db.rows, db.nextID, db.log ++ [s], applyStmt s view :: rest⟩)

/-- Call `tx.Commit`: the rows the transaction sees become the committed rows
and the transaction is no longer open.  A failed commit commits nothing and
ends the transaction.  Either way the handle is done afterwards. -/
def Tx.Commit (tx : Tx) (db : DB) (fault : Option Nat) : Option Error × Tx × DB :=
  if tx.done then (some .ErrTxDone, tx, db)
  else
    match db.pending with
    | [] => (some .ErrTxDone, ⟨true⟩, db)
    | view :: rest =>
      match fault with
      | some c =>
        (some (.store c), ⟨true⟩, ⟨db.rows, db.nextID, db.log ++ [Stmt.commitTx], rest⟩)
      | none => (none, ⟨true⟩, ⟨view, db.nextID, db.log ++ [Stmt.commitTx], rest⟩)

/-- Call `tx.Rollback`: the rows the transaction sees are dropped with the
transaction, the committed rows stay.  On a handle that is already done it
returns `sql.ErrTxDone` and sends nothing. -/
def Tx.Rollback (tx : Tx) (db : DB) (fault : Option Nat) : Option Error × Tx × DB :=
  if tx.done then (some .ErrTxDone, tx, db)
  else
    (storeFailure fault, ⟨true⟩,
      ⟨db.rows, db.nextID, db.log ++ [Stmt.rollbackTx], db.pending.tail⟩)

/-- The failures of the store during one `TransferBalance`, one per call the
function can make (`none`: the call does not fail). -/
structure Faults where
  onBegin : Option Nat
  onRead : Option Nat
  onDebit : Option Nat
  onCredit : Option Nat
  onCommit : Option Nat
  onRollback : Option Nat
deriving DecidableEq, Repr

/-- No call fails. -/
def Faults.none : Faults := ⟨.none, .none, .none, .none, .none, .none⟩

/-- Only the balance read fails, with code `c`. -/
def Faults.atRead (c : Nat) : Faults := ⟨.none, some c, .none, .none, .none, .none⟩

/-- Only the debit update fails, with code `c`. -/
def Faults.atDebit (c : Nat) : Faults := ⟨.none, .none, some c, .none, .none, .none⟩

/-- Only the credit update fails, with code `c`. -/
def Faults.atCredit (c : Nat) : Faults := ⟨.none, .none, .none, some c, .none, .none⟩

/-- Only the commit fails, with code `c`. -/
def Faults.atCommit (c : Nat) : Faults := ⟨.none, .none, .none, .none, some c, .none⟩

/-! ## The program -/

/-- Go `InsertUser`: the id field of `user` is not bound by the statement. -/
def InsertUser (fault : Option Nat) (db : DB) (user : User) : Option Error × DB :=
  db.NamedExec fault user.Name user.Email user.Balance

/-- Go `GetAllUsers`. -/
def GetAllUsers (fault : Option Nat) (db : DB) : (List User × Option Error) × DB :=
  match db.Select fault with
  | (.ok users, db1) => ((users, none), db1)
  | (.error e, db1) => (([], some e), db1)

/-- Go `GetUserByID`.  A failure of the lookup is taken to be reported before a
row is scanned, so `user` still has its zero value when an error is returned. -/
def GetUserByID (fault : Option Nat) (db : DB) (id : Int) : (User × Option Error) × DB :=
  match db.Get fault id with
  | (.ok user, db1) => ((user, none), db1)
  | (.error e, db1) =>
    if e = Error.ErrNoRows then
      ((User.zero, some (.Errorf "пользователь с ID %d не найден" [.int id])), db1)
    else ((User.zero, some e), db1)

/-- Go `TransferBalance`, from the balance read to the commit (lines 63 to 84):
the value of `err` at the return, the handle and the store.  The balance read
puts `scan` of the stored balance into `fromBalance`. -/
def TransferBalance.steps (scan : Rat → Rat) (f : Faults) (tx : Tx) (db : DB)
    (fromID toID : Int) (amount : Rat) : Option Error × Tx × DB :=
  match tx.Get scan db f.onRead fromID with
  | (.error e, db1) =>
    (some (.Wrap "не удалось получить баланс отправителя: %w" e), tx, db1)
  | (.ok fromBalance, db1) =>
    if fromBalance < amount then
      (some (.Errorf "недостаточно средств у пользователя ID %d (баланс: %.2f)"
        [.int fromID, .float fromBalance]), tx, db1)
    else
      match tx.Exec db1 f.onDebit (.subBalance amount fromID) with
      | (some e, tx2, db2) =>
        (some (.Wrap "не удалось обновить баланс отправителя: %w" e), tx2, db2)
      | (.none, tx2, db2) =>
        match tx2.Exec db2 f.onCredit (.addBalance amount toID) with
        | (some e, tx3, db3) =>
          (some (.Wrap "не удалось обновить баланс получателя: %w" e), tx3, db3)
        | (.none, tx3, db3) => tx3.Commit db3 f.onCommit

/-- Go `TransferBalance`, with the conversion of the balance read given as
`scan`.  The deferred function runs at every return after `Beginx` succeeded:
when `err` is not nil it calls `tx.Rollback` and drops what that call
returns. -/
def TransferBalance.scanning (scan : Rat → Rat) (f : Faults) (db : DB) (fromID toID : Int)
    (amount : Rat) : Option Error × DB :=
  if amount ≤ 0 then
    (some (.Errorf "сумма перевода должна быть положительной" []), db)
  else
    match db.Beginx f.onBegin with
    | (.error e, db1) => (some e, db1)
    | (.ok tx, db1) =>
      match TransferBalance.steps scan f tx db1 fromID toID amount with
      | (some e, tx1, db2) => (some e, (tx1.Rollback db2 f.onRollback).2.2)
      | (.none, _, db2) => (.none, db2)

/-- Go `TransferBalance` with balances taken as exact numbers: the balance read
returns the stored balance. -/
def TransferBalance (f : Faults) (db : DB) (fromID toID : Int) (amount : Rat) :
    Option Error × DB :=
  TransferBalance.scanning (fun b => b) f db fromID toID amount

/-! ## Vocabulary of the properties -/

/-- The balance of account `id` as a lookup in the committed rows reads it. -/
def balance (db : DB) (id : Int) : Option Rat := (lookup db.rows id).map User.Balance

/-- The ids of the accounts in the store. -/
def ids (db : DB) : List Int := db.rows.map User.ID

/-- The key constraint of the table: no two rows share an id. -/
def PrimaryKey (db : DB) : Prop := (db.rows.map User.ID).Nodup

instance (db : DB) : Decidable (PrimaryKey db) :=
  inferInstanceAs (Decidable (db.rows.map User.ID).Nodup)

/-- The sum of all balances in the store. -/
def total (db : DB) : Rat := (db.rows.map User.Balance).sum

/-- The InvalidArgument error: the value `TransferBalance` returns at line 49. -/
def InvalidArgument : Error := .Errorf "сумма перевода должна быть положительной" []

/-- The InsufficientFunds error for an account and the balance read: the value
`TransferBalance` returns at line 70. -/
def InsufficientFunds (id : Int) (fromBalance : Rat) : Error :=
  .Errorf "недостаточно средств у пользователя ID %d (баланс: %.2f)" [.int id, .float fromBalance]

/-- The NotFound error for an id: the value `GetUserByID` returns at line 42. -/
def NotFound (id : Int) : Error := .Errorf "пользователь с ID %d не найден" [.int id]

/-- The statements of a transfer that runs to the end. -/
def transferLog (fromID toID : Int) (amount : Rat) : List Stmt :=
  [.beginTx, .selectBalanceForUpdate fromID, .subBalance amount fromID,
    .addBalance amount toID, .commitTx]

/-- The account `main` inserts (line 102); its id field is the zero value. -/
def newUser : User := ⟨0, "Alikhan New", "alikhan.new@example.com", 200⟩

/-- The seeded table of the scenario: account 1 holds 200.00, account 2 holds 0.00. -/
def seed : DB :=
  ⟨[⟨1, "Alikhan", "alikhan@example.com", 200⟩, ⟨2, "Dana", "dana@example.com", 0⟩], 3, [], []⟩

/-- A table in which account 1 holds 0.99999999999999999999, a balance that is
not a `float64`, and account 2 holds 0. -/
def shortOfOne : DB :=
  ⟨[⟨1, "Alikhan", "alikhan@example.com", 1 - 1 / 10 ^ 20⟩,
    ⟨2, "Dana", "dana@example.com", 0⟩], 3, [], []⟩

/-- The rows with debit and credit applied, written out: the balance of a row
goes down by the amount when its id is `fromID` and up by the amount when its
id is `toID`. -/
def transferred (fromID toID : Int) (amount : Rat) (rows : List User) : List User :=
  rows.map (fun u => User.mk u.ID u.Name u.Email
    ((if u.ID = fromID then u.Balance - amount else u.Balance) +
      (if u.ID = toID then amount else 0)))

/-! ## Lemmas on the store -/

theorem lookup_nil (id : Int) : lookup [] id = none := rfl

theorem lookup_cons (u : User) (us : List User) (id : Int) :
    lookup (u :: us) id = if u.ID = id then some u else lookup us id := by
  by_cases h : u.ID = id <;> simp [lookup, List.find?_cons, h]

theorem setBalance_nil (f : Rat → Rat) (id : Int) : setBalance f id [] = [] := rfl

theorem setBalance_cons (f : Rat → Rat) (id : Int) (u : User) (us : List User) :
    setBalance f id (u :: us) =
      (if u.ID = id then User.mk u.ID u.Name u.Email (f u.Balance) else u) :: setBalance f id us :=
  rfl

theorem setBalance_ids (f : Rat → Rat) (id : Int) (rows : List User) :
    (setBalance f id rows).map User.ID = rows.map User.ID := by
  induction rows with
  | nil => rfl
  | cons u us ih =>
    rw [setBalance_cons, List.map_cons, List.map_cons, ih]
    by_cases h : u.ID = id <;> simp [h]

theorem lookup_setBalance_same (f : Rat → Rat) (id : Int) (rows : List User) :
    lookup (setBalance f id rows) id =
      (lookup rows id).map (fun u => User.mk u.ID u.Name u.Email (f u.Balance)) := by
  induction rows with
  | nil => rfl
  | cons u us ih =>
    rw [setBalance_cons, lookup_cons, lookup_cons]
    by_cases h : u.ID = id
    · simp [h]
    · simp [h, ih]

theorem lookup_setBalance_other (f : Rat → Rat) (id other : Int) (rows : List User)
    (hne : other ≠ id) : lookup (setBalance f id rows) other = lookup rows other := by
  induction rows with
  | nil => rfl
  | cons u us ih =>
    rw [setBalance_cons, lookup_cons, lookup_cons, ih]
    by_cases h : u.ID = id
    · have h2 : ¬ u.ID = other := fun e => hne (e.symm.trans h)
      have h3 : ¬ id = other := fun e => hne e.symm
      simp [h, h2, h3]
    · simp [h]

theorem lookup_eq_none_iff (rows : List User) (id : Int) :
    lookup rows id = none ↔ id ∉ rows.map User.ID := by
  induction rows with
  | nil => simp [lookup_nil]
  | cons u us ih =>
    rw [lookup_cons, List.map_cons, List.mem_cons, not_or, ← ih]
    by_cases h : u.ID = id
    · simp [h]
    · have h2 : ¬ id = u.ID := fun e => h e.symm
      simp [h, h2]

theorem lookup_some_mem {rows : List User} {id : Int} {u : User} (h : lookup rows id = some u) :
    u ∈ rows ∧ u.ID = id := by
  induction rows with
  | nil => simp [lookup_nil] at h
  | cons v vs ih =>
    rw [lookup_cons] at h
    by_cases hv : v.ID = id
    · simp only [hv, if_true, Option.some.injEq] at h
      subst h
      exact ⟨List.mem_cons_self _ _, hv⟩
    · simp only [hv, if_false] at h
      exact ⟨List.mem_cons_of_mem _ (ih h).1, (ih h).2⟩

theorem setBalance_absent (f : Rat → Rat) (id : Int) (rows : List User)
    (h : id ∉ rows.map User.ID) : setBalance f id rows = rows := by
  induction rows with
  | nil => rfl
  | cons u us ih =>
    simp only [List.map_cons, List.mem_cons, not_or] at h
    have h1 : ¬ u.ID = id := fun e => h.1 e.symm
    rw [setBalance_cons, ih h.2]
    simp [h1]

/-- Under the key constraint an update of an existing account moves the sum of
the balances by the change of that one balance. -/
theorem sum_setBalance {rows : List User} {id : Int} {u : User} (f : Rat → Rat)
    (hk : (rows.map User.ID).Nodup) (hu : lookup rows id = some u) :
    ((setBalance f id rows).map User.Balance).sum =
      (rows.map User.Balance).sum - u.Balance + f u.Balance := by
  induction rows with
  | nil => simp [lookup_nil] at hu
  | cons w ws ih =>
    rw [List.map_cons, List.nodup_cons] at hk
    rw [lookup_cons] at hu
    rw [setBalance_cons, List.map_cons, List.sum_cons, List.map_cons, List.sum_cons]
    by_cases hw : w.ID = id
    · simp only [hw, if_true, Option.some.injEq] at hu
      subst hu
      rw [setBalance_absent f id ws (hw ▸ hk.1)]
      simp only [hw, if_true]
      ring
    · simp only [hw, if_false] at hu
      rw [ih hk.2 hu]
      simp only [hw, if_false]
      ring

/-! ## Lemmas on `TransferBalance` -/

/-- Every run of `TransferBalance.scanning` ends in one of two ways: with an
error, the committed rows as they were and no transaction left open, or with
no error, both updates committed and no transaction left open (which needs a
positive amount and a sender whose balance as read covers it). -/
theorem TransferBalance_scanning_outcome (scan : Rat → Rat) (f : Faults) (db : DB)
    (fromID toID : Int) (amount : Rat) :
    ((TransferBalance.scanning scan f db fromID toID amount).1 ≠ none ∧
        (TransferBalance.scanning scan f db fromID toID amount).2.rows = db.rows ∧
        (TransferBalance.scanning scan f db fromID toID amount).2.nextID = db.nextID ∧
        (TransferBalance.scanning scan f db fromID toID amount).2.pending = db.pending) ∨
    ((TransferBalance.scanning scan f db fromID toID amount).1 = none ∧
        (TransferBalance.scanning scan f db fromID toID amount).2.rows =
          setBalance (fun b => b + amount) toID (setBalance (fun b => b - amount) fromID db.rows) ∧
        (TransferBalance.scanning scan f db fromID toID amount).2.nextID = db.nextID ∧
        (TransferBalance.scanning scan f db fromID toID amount).2.pending = db.pending ∧
        0 < amount ∧ ∃ u, lookup db.rows fromID = some u ∧ ¬ scan u.Balance < amount) := by
  obtain ⟨fb, fr, fd, fc, fk, fx⟩ := f
  unfold TransferBalance.scanning
  by_cases ha : amount ≤ 0
  · simp [ha]
  · have hpos : 0 < amount := not_le.mp ha
    cases fb with
    | some c => simp [ha, DB.Beginx, DB.issue]
    | none =>
      cases fr with
      | some c =>
        simp [ha, DB.Beginx, DB.issue, TransferBalance.steps, Tx.Get, Tx.Rollback]
      | none =>
        cases hl : lookup db.rows fromID with
        | none =>
          simp [ha, DB.Beginx, DB.issue, TransferBalance.steps, Tx.Get, Tx.Rollback, hl]
        | some u =>
          by_cases hb : scan u.Balance < amount
          · simp [ha, DB.Beginx, DB.issue, TransferBalance.steps, Tx.Get, Tx.Rollback, hl, hb]
          · have hle : amount ≤ scan u.Balance := not_lt.mp hb
            cases fd <;> cases fc <;> cases fk <;>
              simp [ha, DB.Beginx, DB.issue, TransferBalance.steps, Tx.Get, Tx.Exec, Tx.Commit,
                Tx.Rollback, applyStmt, hl, hb, hle, hpos]

/-- Every run of `TransferBalance` ends in one of two ways: with an error and
the committed rows as they were, or with no error and both updates committed
(which needs a positive amount and a sender whose balance covers it). -/
theorem TransferBalance_outcome (f : Faults) (db : DB) (fromID toID : Int) (amount : Rat) :
    ((TransferBalance f db fromID toID amount).1 ≠ none ∧
        (TransferBalance f db fromID toID amount).2.rows = db.rows ∧
        (TransferBalance f db fromID toID amount).2.nextID = db.nextID) ∨
    ((TransferBalance f db fromID toID amount).1 = none ∧
        (TransferBalance f db fromID toID amount).2.rows =
          setBalance (fun b => b + amount) toID (setBalance (fun b => b - amount) fromID db.rows) ∧
        (TransferBalance f db fromID toID amount).2.nextID = db.nextID ∧
        0 < amount ∧ ∃ u, lookup db.rows fromID = some u ∧ amount ≤ u.Balance) := by
  unfold TransferBalance
  rcases TransferBalance_scanning_outcome (fun b => b) f db fromID toID amount with h | h
  · exact Or.inl ⟨h.1, h.2.1, h.2.2.1⟩
  · obtain ⟨h1, h2, h3, _, h5, u, hu, hle⟩ := h
    exact Or.inr ⟨h1, h2, h3, h5, u, hu, not_lt.mp hle⟩

/-- When the first five calls do not fail, the amount is positive and the
sender holds at least the amount, the transfer commits both updates. -/
theorem TransferBalance_commits (f : Faults) (db : DB) (fromID toID : Int) (amount : Rat)
    (u : User) (hb : f.onBegin = none) (hr : f.onRead = none) (hd : f.onDebit = none)
    (hc : f.onCredit = none) (hk : f.onCommit = none) (hu : lookup db.rows fromID = some u)
    (hpos : 0 < amount) (hle : amount ≤ u.Balance) :
    TransferBalance f db fromID toID amount =
      (none, ⟨setBalance (fun b => b + amount) toID
                (setBalance (fun b => b - amount) fromID db.rows),
              db.nextID, db.log ++ transferLog fromID toID amount, db.pending⟩) := by
  obtain ⟨fb, fr, fd, fc, fk, fx⟩ := f
  simp only at hb hr hd hc hk
  subst hb hr hd hc hk
  have ha : ¬ amount ≤ 0 := not_le.mpr hpos
  have hlt : ¬ u.Balance < amount := not_lt.mpr hle
  simp [TransferBalance, TransferBalance.scanning, ha, DB.Beginx, DB.issue,
    TransferBalance.steps, Tx.Get, Tx.Exec, Tx.Commit, applyStmt, hu, hlt, transferLog]

/-- When opening the transaction and the balance read do not fail and the
balance of the sender as read is less than the amount, the transfer ends with
the InsufficientFunds error and a rollback. -/
theorem TransferBalance_insufficient (scan : Rat → Rat) (f : Faults) (db : DB)
    (fromID toID : Int) (amount : Rat)
    (u : User) (hb : f.onBegin = none) (hr : f.onRead = none)
    (hu : lookup db.rows fromID = some u) (hpos : 0 < amount) (hlt : scan u.Balance < amount) :
    TransferBalance.scanning scan f db fromID toID amount =
      (some (InsufficientFunds fromID (scan u.Balance)),
        ⟨db.rows, db.nextID,
          db.log ++ [.beginTx, .selectBalanceForUpdate fromID, .rollbackTx], db.pending⟩) := by
  obtain ⟨fb, fr, fd, fc, fk, fx⟩ := f
  simp only at hb hr
  subst hb hr
  have ha : ¬ amount ≤ 0 := not_le.mpr hpos
  simp [TransferBalance.scanning, ha, DB.Beginx, DB.issue, TransferBalance.steps, Tx.Get,
    Tx.Rollback, hu, hlt, InsufficientFunds]

/-- The two updates of a transfer, one after the other, give the rows written
out in `transferred`. -/
theorem setBalance_transferred (fromID toID : Int) (amount : Rat) (rows : List User) :
    setBalance (fun b => b + amount) toID (setBalance (fun b => b - amount) fromID rows) =
      transferred fromID toID amount rows := by
  induction rows with
  | nil => rfl
  | cons u us ih =>
    rw [setBalance_cons, setBalance_cons, ih]
    unfold transferred
    rw [List.map_cons]
    congr 1
    by_cases h1 : u.ID = fromID
    · rw [if_pos h1, if_pos h1]
      by_cases h2 : (User.mk u.ID u.Name u.Email (u.Balance - amount)).ID = toID
      · have h3 : u.ID = toID := h2
        rw [if_pos h2, if_pos h3]
      · have h3 : ¬ u.ID = toID := h2
        rw [if_neg h2, if_neg h3, add_zero]
    · rw [if_neg h1, if_neg h1]
      by_cases h2 : u.ID = toID
      · rw [if_pos h2, if_pos h2]
      · rw [if_neg h2, if_neg h2, add_zero]

theorem balance_eq_some {db : DB} {id : Int} {b : Rat} (h : balance db id = some b) :
    ∃ u, lookup db.rows id = some u ∧ u.Balance = b := by
  unfold balance at h
  cases hl : lookup db.rows id with
  | none => simp [hl] at h
  | some u => exact ⟨u, rfl, by simpa [hl] using h⟩

/-- Two updates of balances in a row keep every row in place with its id, name
and email, and keep the balance of every row that neither update addresses. -/
theorem setBalance_frame (f1 f2 : Rat → Rat) (id1 id2 : Int) (rows : List User) :
    List.Forall₂
      (fun u v => v.ID = u.ID ∧ v.Name = u.Name ∧ v.Email = u.Email ∧
        (u.ID ≠ id1 → u.ID ≠ id2 → v.Balance = u.Balance))
      rows (setBalance f2 id2 (setBalance f1 id1 rows)) := by
  induction rows with
  | nil => exact List.Forall₂.nil
  | cons u us ih =>
    rw [setBalance_cons, setBalance_cons]
    refine List.Forall₂.cons ?_ ih
    by_cases h1 : u.ID = id1
    · rw [if_pos h1]
      by_cases h2 : (User.mk u.ID u.Name u.Email (f1 u.Balance)).ID = id2
      · rw [if_pos h2]; exact ⟨rfl, rfl, rfl, fun h => absurd h1 h⟩
      · rw [if_neg h2]; exact ⟨rfl, rfl, rfl, fun h => absurd h1 h⟩
    · rw [if_neg h1]
      by_cases h2 : u.ID = id2
      · rw [if_pos h2]; exact ⟨rfl, rfl, rfl, fun _ h => absurd h2 h⟩
      · rw [if_neg h2]; exact ⟨rfl, rfl, rfl, fun _ _ => rfl⟩

theorem forall₂_same_row (id1 id2 : Int) (rows : List User) :
    List.Forall₂
      (fun u v => v.ID = u.ID ∧ v.Name = u.Name ∧ v.Email = u.Email ∧
        (u.ID ≠ id1 → u.ID ≠ id2 → v.Balance = u.Balance))
      rows rows := by
  induction rows with
  | nil => exact List.Forall₂.nil
  | cons u us ih => exact List.Forall₂.cons ⟨rfl, rfl, rfl, fun _ _ => rfl⟩ ih

theorem lookup_append_new (rows : List User) (u : User)
    (h : u.ID ∉ rows.map User.ID) : lookup (rows ++ [u]) u.ID = some u := by
  induction rows with
  | nil => simp [lookup_cons]
  | cons v vs ih =>
    simp only [List.map_cons, List.mem_cons, not_or] at h
    have hv : ¬ v.ID = u.ID := fun e => h.1 e.symm
    rw [List.cons_append, lookup_cons, if_neg hv]
    exact ih h.2

/-- The key constraint is kept by `TransferBalance`, whatever its outcome. -/
theorem TransferBalance_keeps_key (f : Faults) (db : DB) (fromID toID : Int) (amount : Rat)
    (hk : PrimaryKey db) : PrimaryKey (TransferBalance f db fromID toID amount).2 := by
  unfold PrimaryKey at hk ⊢
  rcases TransferBalance_outcome f db fromID toID amount with h | h
  · rw [h.2.1]; exact hk
  · rw [h.2.1, setBalance_ids, setBalance_ids]; exact hk

/-- The key constraint is kept by `InsertUser`, whatever its outcome. -/
theorem InsertUser_keeps_key (fault : Option Nat) (db : DB) (a : User)
    (hk : PrimaryKey db) : PrimaryKey (InsertUser fault db a).2 := by
  unfold PrimaryKey at hk ⊢
  unfold InsertUser DB.NamedExec
  cases fault with
  | some c => exact hk
  | none =>
    by_cases hm : db.nextID ∈ db.rows.map User.ID
    · simpa [hm] using hk
    · simp only [hm, if_false, List.map_append, List.map_cons, List.map_nil]
      refine List.Nodup.append hk (List.nodup_singleton _) ?_
      intro x hx hx2
      rw [List.mem_singleton] at hx2
      exact hm (hx2 ▸ hx)

/-! ## The claims -/

/-- C1 (counterexample): a transfer of 100 from account 1 to itself on the
seeded table meets every condition of the claim (the account is present, the
amount is positive and covered, no statement fails) and succeeds, but the
balance of the account afterwards is 200, not 200 - 100. -/
theorem C1_self_transfer_counterexample :
    balance seed 1 = some 200 ∧ (0 : Rat) < 100 ∧ (100 : Rat) ≤ 200 ∧
    (TransferBalance Faults.none seed 1 1 100).1 = none ∧
    balance (TransferBalance Faults.none seed 1 1 100).2 1 = some 200 ∧
    balance (TransferBalance Faults.none seed 1 1 100).2 1 ≠ some (200 - 100) := by
  refine ⟨by decide!, by norm_num, by norm_num, by decide!, by decide!, by decide!⟩

/-- C1 (amended): for accounts `fromID` and `toID` present in the store and an
amount with `0 < amount ≤ balance(fromID)`, when no store statement fails
`TransferBalance` succeeds and the sum of the two balances is as before; when
the two accounts differ the balance of `fromID` is its old value minus the
amount and the balance of `toID` its old value plus the amount; when they are
the same account its balance is unchanged. -/
theorem C1_transfer_sufficient_funds (db : DB) (fromID toID : Int) (amount bf bt : Rat)
    (hf : balance db fromID = some bf) (ht : balance db toID = some bt)
    (hpos : 0 < amount) (hle : amount ≤ bf) :
    (TransferBalance Faults.none db fromID toID amount).1 = none ∧
    (∃ bf2 bt2, balance (TransferBalance Faults.none db fromID toID amount).2 fromID = some bf2 ∧
      balance (TransferBalance Faults.none db fromID toID amount).2 toID = some bt2 ∧
      bf2 + bt2 = bf + bt) ∧
    (fromID ≠ toID →
      balance (TransferBalance Faults.none db fromID toID amount).2 fromID = some (bf - amount) ∧
      balance (TransferBalance Faults.none db fromID toID amount).2 toID = some (bt + amount)) ∧
    (fromID = toID →
      balance (TransferBalance Faults.none db fromID toID amount).2 fromID = some bf) := by
  obtain ⟨u, hu, hub⟩ := balance_eq_some hf
  obtain ⟨v, hv, hvb⟩ := balance_eq_some ht
  rw [TransferBalance_commits Faults.none db fromID toID amount u rfl rfl rfl rfl rfl hu hpos
    (hub ▸ hle)]
  by_cases hne : fromID = toID
  · subst hne
    have hbv : bt = bf := by
      have := hu.symm.trans hv
      simp only [Option.some.injEq] at this
      rw [← hub, ← hvb, this]
    simp [balance, lookup_setBalance_same, hu, hub, hbv]
  · have hne2 : toID ≠ fromID := fun e => hne e.symm
    have h1 : balance (DB.mk (setBalance (fun b => b + amount) toID
        (setBalance (fun b => b - amount) fromID db.rows)) db.nextID
        (db.log ++ transferLog fromID toID amount) db.pending) fromID = some (bf - amount) := by
      simp [balance, lookup_setBalance_same, lookup_setBalance_other _ _ _ _ hne, hu, hub]
    have h2 : balance (DB.mk (setBalance (fun b => b + amount) toID
        (setBalance (fun b => b - amount) fromID db.rows)) db.nextID
        (db.log ++ transferLog fromID toID amount) db.pending) toID = some (bt + amount) := by
      simp [balance, lookup_setBalance_same, lookup_setBalance_other _ _ _ _ hne2, hv, hvb]
    exact ⟨rfl, ⟨bf - amount, bt + amount, h1, h2, by ring⟩, fun _ => ⟨h1, h2⟩,
      fun e => absurd e hne⟩

/-- C1 (witness): the scenario of `main`: on the seeded table a transfer of
100.00 from account 1 to account 2 leaves 100.00 on each. -/
theorem C1_transfer_sufficient_funds_witness :
    (TransferBalance Faults.none seed 1 2 100).1 = none ∧
    balance (TransferBalance Faults.none seed 1 2 100).2 1 = some (200 - 100) ∧
    balance (TransferBalance Faults.none seed 1 2 100).2 2 = some (0 + 100) :=
  have h := C1_transfer_sufficient_funds seed 1 2 100 200 0 (by decide!) (by decide!)
    (by norm_num) (by norm_num)
  ⟨h.1, h.2.2.1 (by decide)⟩

/-- C2 (counterexample): on the seeded table account 1 holds 200 and a
transfer of 2000 is asked for, but the balance read fails in the store (code
57014); `TransferBalance` returns the wrapped store error, which is not the
InsufficientFunds error. -/
theorem C2_read_failure_counterexample :
    balance seed 1 = some 200 ∧ (0 : Rat) < 2000 ∧ (200 : Rat) < 2000 ∧
    (TransferBalance (Faults.atRead 57014) seed 1 2 2000).1 =
      some (Error.Wrap "не удалось получить баланс отправителя: %w" (Error.store 57014)) ∧
    (TransferBalance (Faults.atRead 57014) seed 1 2 2000).1 ≠
      some (InsufficientFunds 1 200) := by
  refine ⟨by decide!, by norm_num, by norm_num, by decide!, by decide!⟩

/-- C2 (amended): for an existing account `fromID`, any `toID` and an amount
`amount > 0` greater than the balance of `fromID` as the program reads it
(`scan` of the stored balance, the `float64` it is converted to), the
committed rows (so the balances of `fromID` and `toID`) are after the call
what they were before and an error is returned, whatever fails in the store;
and when opening the transaction and the balance read do not fail, the error
is the InsufficientFunds error that carries `fromID` and the balance read. -/
theorem C2_transfer_insufficient_funds (scan : Rat → Rat) (f : Faults) (db : DB)
    (fromID toID : Int) (amount b : Rat) (hf : balance db fromID = some b)
    (hpos : 0 < amount) (hlt : scan b < amount) :
    (f.onBegin = none → f.onRead = none →
      (TransferBalance.scanning scan f db fromID toID amount).1 =
        some (InsufficientFunds fromID (scan b))) ∧
    (TransferBalance.scanning scan f db fromID toID amount).1 ≠ none ∧
    (TransferBalance.scanning scan f db fromID toID amount).2.rows = db.rows ∧
    balance (TransferBalance.scanning scan f db fromID toID amount).2 fromID =
      balance db fromID ∧
    balance (TransferBalance.scanning scan f db fromID toID amount).2 toID =
      balance db toID := by
  obtain ⟨u, hu, hub⟩ := balance_eq_some hf
  have hrows : (TransferBalance.scanning scan f db fromID toID amount).1 ≠ none ∧
      (TransferBalance.scanning scan f db fromID toID amount).2.rows = db.rows := by
    rcases TransferBalance_scanning_outcome scan f db fromID toID amount with h | h
    · exact ⟨h.1, h.2.1⟩
    · obtain ⟨v, hv, hge⟩ := h.2.2.2.2.2
      have huv : v = u := by simpa using hv.symm.trans hu
      exact absurd (show scan v.Balance < amount by rw [huv, hub]; exact hlt) hge
  refine ⟨?_, hrows.1, hrows.2, ?_, ?_⟩
  · intro hb hr
    rw [TransferBalance_insufficient scan f db fromID toID amount u hb hr hu hpos
      (hub ▸ hlt), hub]
  · simp only [balance, hrows.2]
  · simp only [balance, hrows.2]

/-- C2 (witness): the second transfer of `main`: with 200 on account 1, read as
the `float64` 200, a transfer of 2000 fails with InsufficientFunds for account
1 and balance 200. -/
theorem C2_transfer_insufficient_funds_witness :
    float64 200 = 200 ∧
    (TransferBalance.scanning float64 Faults.none seed 1 2 2000).1 =
      some (InsufficientFunds 1 (float64 200)) ∧
    balance (TransferBalance.scanning float64 Faults.none seed 1 2 2000).2 1 = some 200 ∧
    balance (TransferBalance.scanning float64 Faults.none seed 1 2 2000).2 2 = some 0 :=
  have h := C2_transfer_insufficient_funds float64 Faults.none seed 1 2 2000 200 (by decide!)
    (by norm_num) (by decide!)
  ⟨by decide!, h.1 rfl rfl, h.2.2.2.1.trans (by decide!), h.2.2.2.2.trans (by decide!)⟩

/-- C3: for an amount `amount ≤ 0`, whatever the store, the accounts and the
failures the store would report, `TransferBalance` returns the InvalidArgument
error and the store is exactly as before the call: same rows, same id
sequence, and no statement issued (no transaction opened). -/
theorem C3_transfer_invalid_amount (f : Faults) (db : DB) (fromID toID : Int) (amount : Rat)
    (h : amount ≤ 0) : TransferBalance f db fromID toID amount = (some InvalidArgument, db) := by
  simp [TransferBalance, TransferBalance.scanning, h, InvalidArgument]

/-- C3 (witness): a transfer of -5 on the seeded table. -/
theorem C3_transfer_invalid_amount_witness :
    ((-5 : Rat) ≤ 0) ∧ TransferBalance Faults.none seed 1 2 (-5) = (some InvalidArgument, seed) :=
  ⟨by norm_num, C3_transfer_invalid_amount Faults.none seed 1 2 (-5) (by norm_num)⟩

/-- C4: `TransferBalance` is all-or-nothing.  For every store, accounts, amount,
conversion of the balance read and every choice of the calls that fail
(opening the transaction, the balance read, the debit, the credit, the
commit, the rollback): if an error is returned, the committed rows and the id
sequence are those before the call and the transaction of the call is no
longer open, so the rows it had updated (a debit already executed) are
dropped; if no error is returned, the committed rows are the rows before the
call with the balance of `fromID` lowered by the amount and the balance of
`toID` raised by the amount, and the transaction is no longer open. -/
theorem C4_transfer_all_or_nothing (scan : Rat → Rat) (f : Faults) (db : DB)
    (fromID toID : Int) (amount : Rat) :
    ((TransferBalance.scanning scan f db fromID toID amount).1 ≠ none →
      (TransferBalance.scanning scan f db fromID toID amount).2.rows = db.rows ∧
      (TransferBalance.scanning scan f db fromID toID amount).2.nextID = db.nextID ∧
      (TransferBalance.scanning scan f db fromID toID amount).2.pending = db.pending) ∧
    ((TransferBalance.scanning scan f db fromID toID amount).1 = none →
      (TransferBalance.scanning scan f db fromID toID amount).2.rows =
        db.rows.map (fun u => User.mk u.ID u.Name u.Email
          ((if u.ID = fromID then u.Balance - amount else u.Balance) +
            (if u.ID = toID then amount else 0))) ∧
      (TransferBalance.scanning scan f db fromID toID amount).2.nextID = db.nextID ∧
      (TransferBalance.scanning scan f db fromID toID amount).2.pending = db.pending) := by
  rcases TransferBalance_scanning_outcome scan f db fromID toID amount with h | h
  · exact ⟨fun _ => h.2, fun e => absurd e h.1⟩
  · refine ⟨fun e => absurd h.1 e, fun _ => ⟨?_, h.2.2.1, h.2.2.2.1⟩⟩
    rw [h.2.1, setBalance_transferred]
    rfl

/-- C4 (witness): on the seeded table, when the credit fails after the debit was
executed, the store holds at the return of line 80 an open transaction in
which account 1 is down to 100, and after the deferred rollback an error is
returned, the committed rows are the seeded rows and no transaction is open;
when nothing fails, account 1 holds 100 and account 2 holds 100. -/
theorem C4_transfer_all_or_nothing_witness :
    (TransferBalance.steps float64 (Faults.atCredit 8006) ⟨false⟩ (seed.Beginx none).2
        1 2 100).2.2.pending =
      [[⟨1, "Alikhan", "alikhan@example.com", 100⟩, ⟨2, "Dana", "dana@example.com", 0⟩]] ∧
    (TransferBalance.scanning float64 (Faults.atCredit 8006) seed 1 2 100).1 =
      some (Error.Wrap "не удалось обновить баланс получателя: %w" (Error.store 8006)) ∧
    ((TransferBalance.scanning float64 (Faults.atCredit 8006) seed 1 2 100).2.rows = seed.rows ∧
      (TransferBalance.scanning float64 (Faults.atCredit 8006) seed 1 2 100).2.nextID = 3 ∧
      (TransferBalance.scanning float64 (Faults.atCredit 8006) seed 1 2 100).2.pending = []) ∧
    (TransferBalance.scanning float64 Faults.none seed 1 2 100).2.rows =
      [⟨1, "Alikhan", "alikhan@example.com", 100⟩, ⟨2, "Dana", "dana@example.com", 100⟩] :=
  ⟨by decide!, by decide!,
   (C4_transfer_all_or_nothing float64 (Faults.atCredit 8006) seed 1 2 100).1 (by decide!),
   (((C4_transfer_all_or_nothing float64 Faults.none seed 1 2 100).2 (by decide!)).1).trans
     (by decide!)⟩

/-- C5 (failing input): in the table `shortOfOne` ids are unique and every
balance is non-negative; account 1 holds 0.99999999999999999999, which the
balance read converts to the `float64` 1.  A transfer of 1 from account 1 to
account 2 passes the check of line 69, returns no error and commits, and the
balance of account 1 is then -0.00000000000000000001, below zero. -/
theorem C5_rounded_read_overdraft :
    PrimaryKey shortOfOne ∧ (∀ u ∈ shortOfOne.rows, 0 ≤ u.Balance) ∧
    float64 (1 - 1 / 10 ^ 20) = 1 ∧
    (TransferBalance.scanning float64 Faults.none shortOfOne 1 2 1).1 = none ∧
    balance (TransferBalance.scanning float64 Faults.none shortOfOne 1 2 1).2 1 =
      some (-(1 / 10 ^ 20)) ∧
    (-(1 / 10 ^ 20) : Rat) < 0 := by
  refine ⟨by decide, by decide!, by decide!, by decide!, by decide!, by norm_num⟩

/-- C6 (counterexample): on the seeded table a transfer of 100 from 1 to 2 in
which the commit fails in the store (code 8006) returns that store error
itself: it is not a wrapping error, it has no cause to unwrap and carries no
message naming the commit. -/
theorem C6_commit_failure_counterexample :
    (TransferBalance (Faults.atCommit 8006) seed 1 2 100).1 =
      some (Error.store 8006) ∧
    (Error.store 8006).Unwrap = none := by
  refine ⟨by decide!, rfl⟩

/-- C6 (amended): in a transfer of a positive amount whose transaction was
opened, a store failure at the balance read, at the debit update or at the
credit update is returned wrapped: the returned error has the store error as
its cause, under a message of its own for each of the three steps; a store
failure at the commit is returned as it is, the store error itself with no
message added. -/
theorem C6_transfer_store_failure_errors (f : Faults) (db : DB) (fromID toID : Int)
    (amount : Rat) (c : Nat) (hpos : 0 < amount) (hb : f.onBegin = none) :
    (f.onRead = some c →
      (TransferBalance f db fromID toID amount).1 =
        some (.Wrap "не удалось получить баланс отправителя: %w" (.store c))) ∧
    (∀ u, f.onRead = none → lookup db.rows fromID = some u → amount ≤ u.Balance →
      (f.onDebit = some c →
        (TransferBalance f db fromID toID amount).1 =
          some (.Wrap "не удалось обновить баланс отправителя: %w" (.store c))) ∧
      (f.onDebit = none → f.onCredit = some c →
        (TransferBalance f db fromID toID amount).1 =
          some (.Wrap "не удалось обновить баланс получателя: %w" (.store c))) ∧
      (f.onDebit = none → f.onCredit = none → f.onCommit = some c →
        (TransferBalance f db fromID toID amount).1 = some (.store c))) ∧
    ("не удалось получить баланс отправителя: %w" ≠ "не удалось обновить баланс отправителя: %w" ∧
      "не удалось получить баланс отправителя: %w" ≠ "не удалось обновить баланс получателя: %w" ∧
      "не удалось обновить баланс отправителя: %w" ≠ "не удалось обновить баланс получателя: %w") := by
  obtain ⟨fb, fr, fd, fc, fk, fx⟩ := f
  simp only at hb
  subst hb
  have ha : ¬ amount ≤ 0 := not_le.mpr hpos
  refine ⟨?_, ?_, by decide⟩
  · intro hr
    simp only at hr
    subst hr
    simp [TransferBalance, TransferBalance.scanning, ha, DB.Beginx, DB.issue, TransferBalance.steps, Tx.Get]
  · intro u hr hu hle
    simp only at hr
    subst hr
    have hlt : ¬ u.Balance < amount := not_lt.mpr hle
    refine ⟨?_, ?_, ?_⟩
    · intro hd
      simp only at hd
      subst hd
      simp [TransferBalance, TransferBalance.scanning, ha, DB.Beginx, DB.issue, TransferBalance.steps, Tx.Get, Tx.Exec,
        hu, hlt]
    · intro hd hc
      simp only at hd hc
      subst hd hc
      simp [TransferBalance, TransferBalance.scanning, ha, DB.Beginx, DB.issue, TransferBalance.steps, Tx.Get, Tx.Exec,
        hu, hlt]
    · intro hd hc hk
      simp only at hd hc hk
      subst hd hc hk
      simp [TransferBalance, TransferBalance.scanning, ha, DB.Beginx, DB.issue, TransferBalance.steps, Tx.Get, Tx.Exec,
        Tx.Commit, hu, hlt]

/-- C6 (witness): on the seeded table a failed debit of the transfer of 100
from 1 to 2 is returned wrapped with the store error as its cause. -/
theorem C6_transfer_store_failure_errors_witness :
    (TransferBalance (Faults.atDebit 8006) seed 1 2 100).1 =
      some (.Wrap "не удалось обновить баланс отправителя: %w" (.store 8006)) :=
  ((C6_transfer_store_failure_errors (Faults.atDebit 8006) seed 1 2 100
      8006 (by norm_num) rfl).2.1
    ⟨1, "Alikhan", "alikhan@example.com", 200⟩ rfl (by decide!) (by norm_num)).1 rfl

/-- C7 (counterexample): on the seeded table, when the lookup statement fails
in the store (code 8006), `GetUserByID 99`, an id with no row, returns the
store error and not the NotFound error, and `GetUserByID 1`, an id with a row,
returns an error and the zero record instead of the row. -/
theorem C7_lookup_failure_counterexample :
    99 ∉ ids seed ∧
    (GetUserByID (some 8006) seed 99).1 = (User.zero, some (Error.store 8006)) ∧
    Error.store 8006 ≠ NotFound 99 ∧
    1 ∈ ids seed ∧
    (GetUserByID (some 8006) seed 1).1 = (User.zero, some (Error.store 8006)) := by
  refine ⟨by decide, by decide!, by decide, by decide, by decide!⟩

/-- C7 (amended): when the lookup statement does not fail in the store,
`GetUserByID id` fails with the NotFound error that carries `id` if no row has
that id, and returns a row with that id and no error if there is one; when
the statement fails, the store error is returned unchanged. -/
theorem C7_get_user_by_id (db : DB) (id : Int) :
    (id ∉ ids db → (GetUserByID none db id).1 = (User.zero, some (NotFound id))) ∧
    (id ∈ ids db → ∃ u ∈ db.rows, u.ID = id ∧ lookup db.rows id = some u ∧
      (GetUserByID none db id).1 = (u, none)) ∧
    (∀ c, (GetUserByID (some c) db id).1 = (User.zero, some (Error.store c))) := by
  refine ⟨?_, ?_, ?_⟩
  · intro h
    have hl : lookup db.rows id = none := (lookup_eq_none_iff db.rows id).mpr h
    simp [GetUserByID, DB.Get, hl, NotFound]
  · intro h
    cases hl : lookup db.rows id with
    | none => exact absurd h ((lookup_eq_none_iff db.rows id).mp hl)
    | some u =>
      refine ⟨u, (lookup_some_mem hl).1, (lookup_some_mem hl).2, rfl, ?_⟩
      simp [GetUserByID, DB.Get, hl]
  · intro c
    simp [GetUserByID, DB.Get]

/-- C7 (witness): on the seeded table id 99 is not found and id 1 gives the
row of account 1. -/
theorem C7_get_user_by_id_witness :
    (GetUserByID none seed 99).1 = (User.zero, some (NotFound 99)) ∧
    ∃ u ∈ seed.rows, u.ID = 1 ∧ lookup seed.rows 1 = some u ∧
      (GetUserByID none seed 1).1 = (u, none) :=
  ⟨(C7_get_user_by_id seed 99).1 (by decide), (C7_get_user_by_id seed 1).2.1 (by decide)⟩

/-- C8 (counterexample): on the seeded table `InsertUser` of the account of
`main` succeeds and adds a row with the fresh id 3, but when the lookup
statement then fails in the store (code 8006) `GetUserByID 3` returns the
store error and the zero record, whose name is not the inserted name. -/
theorem C8_lookup_failure_counterexample :
    (InsertUser none seed newUser).1 = none ∧
    3 ∉ ids seed ∧
    (InsertUser none seed newUser).2.rows =
      seed.rows ++ [User.mk 3 newUser.Name newUser.Email newUser.Balance] ∧
    (GetUserByID (some 8006) (InsertUser none seed newUser).2 3).1 =
      (User.zero, some (Error.store 8006)) ∧
    User.zero.Name ≠ newUser.Name := by
  refine ⟨by decide, by decide, by decide!, by decide!, by decide⟩

/-- C8 (amended): a successful `InsertUser a` adds exactly one row, at an id
that no row had before and with the name, email and balance of `a` (the id
field of `a` plays no part); `GetUserByID` on that id, when its lookup
statement does not fail in the store, returns that row with no error, and
returns the store error when the statement fails. -/
theorem C8_insert_then_get (fault : Option Nat) (db db2 : DB) (a : User)
    (h : InsertUser fault db a = (none, db2)) :
    ∃ id, id ∉ ids db ∧
      db2.rows = db.rows ++ [User.mk id a.Name a.Email a.Balance] ∧
      (GetUserByID none db2 id).1 = (User.mk id a.Name a.Email a.Balance, none) ∧
      ∀ c, (GetUserByID (some c) db2 id).1 = (User.zero, some (Error.store c)) := by
  unfold InsertUser DB.NamedExec at h
  cases fault with
  | some c => simp at h
  | none =>
    by_cases hm : db.nextID ∈ db.rows.map User.ID
    · simp [hm] at h
    · simp only [hm, if_false, Prod.mk.injEq, true_and] at h
      subst h
      refine ⟨db.nextID, hm, rfl, ?_, ?_⟩
      · have hl := lookup_append_new db.rows (User.mk db.nextID a.Name a.Email a.Balance) hm
        simp only at hl
        simp [GetUserByID, DB.Get, hl]
      · intro c
        simp [GetUserByID, DB.Get]

/-- C8 (witness): the insert of `main` on the seeded table, read back at id 3. -/
theorem C8_insert_then_get_witness :
    ∃ id, id ∉ ids seed ∧
      (InsertUser none seed newUser).2.rows =
        seed.rows ++ [User.mk id newUser.Name newUser.Email newUser.Balance] ∧
      (GetUserByID none (InsertUser none seed newUser).2 id).1 =
        (User.mk id newUser.Name newUser.Email newUser.Balance, none) ∧
      ∀ c, (GetUserByID (some c) (InsertUser none seed newUser).2 id).1 =
        (User.zero, some (Error.store c)) :=
  C8_insert_then_get none seed (InsertUser none seed newUser).2 newUser (by decide!)

/-- C9 (counterexample): on the seeded table a transfer of 100 from account 1
to the id 99, which has no row, with the amount covered by the balance of
account 1, returns an error when the commit fails in the store (code 8006),
and the balance of account 1 is still 200. -/
theorem C9_commit_failure_counterexample :
    balance seed 1 = some 200 ∧ 99 ∉ ids seed ∧ (0 : Rat) < 100 ∧ (100 : Rat) ≤ 200 ∧
    (TransferBalance (Faults.atCommit 8006) seed 1 99 100).1 =
      some (Error.store 8006) ∧
    balance (TransferBalance (Faults.atCommit 8006) seed 1 99 100).2 1 =
      some 200 := by
  refine ⟨by decide!, by decide, by norm_num, by norm_num, by decide!, by decide!⟩

/-- C9 (amended): for an existing account `fromID`, an id `toID` with no row
and an amount with `0 < amount ≤ balance(fromID)`, when no store statement
fails `TransferBalance` returns no error, the balance of `fromID` is reduced
by the amount, the committed rows are the old rows with only the debit
applied, so the balance of every other account is as before (no account is
credited), and, under the key constraint of the table, the sum of all
balances is lower by exactly the amount. -/
theorem C9_transfer_to_missing_account (db : DB) (fromID toID : Int) (amount b : Rat)
    (hf : balance db fromID = some b) (ht : toID ∉ ids db)
    (hpos : 0 < amount) (hle : amount ≤ b) :
    (TransferBalance Faults.none db fromID toID amount).1 = none ∧
    balance (TransferBalance Faults.none db fromID toID amount).2 fromID = some (b - amount) ∧
    (TransferBalance Faults.none db fromID toID amount).2.rows =
      applyStmt (.subBalance amount fromID) db.rows ∧
    (∀ id, id ≠ fromID →
      balance (TransferBalance Faults.none db fromID toID amount).2 id = balance db id) ∧
    (PrimaryKey db →
      total (TransferBalance Faults.none db fromID toID amount).2 = total db - amount) := by
  obtain ⟨u, hu, hub⟩ := balance_eq_some hf
  have hskip : setBalance (fun x => x + amount) toID
      (setBalance (fun x => x - amount) fromID db.rows) =
      setBalance (fun x => x - amount) fromID db.rows :=
    setBalance_absent _ _ _ (by rw [setBalance_ids]; exact ht)
  rw [TransferBalance_commits Faults.none db fromID toID amount u rfl rfl rfl rfl rfl hu hpos
    (hub ▸ hle), hskip]
  refine ⟨rfl, ?_, rfl, ?_, ?_⟩
  · simp [balance, lookup_setBalance_same, hu, hub]
  · intro id hne
    simp [balance, lookup_setBalance_other _ _ _ _ hne]
  · intro hk
    simp only [total]
    rw [sum_setBalance _ hk hu]
    ring

/-- C9 (witness): on the seeded table 100 sent from account 1 to the id 99
leaves 100 on account 1 and 100 in the whole table, where 200 were. -/
theorem C9_transfer_to_missing_account_witness :
    (TransferBalance Faults.none seed 1 99 100).1 = none ∧
    balance (TransferBalance Faults.none seed 1 99 100).2 1 = some (200 - 100) ∧
    total (TransferBalance Faults.none seed 1 99 100).2 = total seed - 100 :=
  have h := C9_transfer_to_missing_account seed 1 99 100 200 (by decide!) (by decide)
    (by norm_num) (by norm_num)
  ⟨h.1, h.2.1, h.2.2.2.2 (by decide)⟩

/-- C10: whatever the accounts, the amount, the failures of the store and the
outcome, `TransferBalance` leaves the ids of the store and the id sequence as
they were, and every row in its place with the same id, name and email and,
when its id is neither `fromID` nor `toID`, the same balance. -/
theorem C10_transfer_frame (f : Faults) (db : DB) (fromID toID : Int) (amount : Rat) :
    ids (TransferBalance f db fromID toID amount).2 = ids db ∧
    (TransferBalance f db fromID toID amount).2.nextID = db.nextID ∧
    List.Forall₂
      (fun u v => v.ID = u.ID ∧ v.Name = u.Name ∧ v.Email = u.Email ∧
        (u.ID ≠ fromID → u.ID ≠ toID → v.Balance = u.Balance))
      db.rows (TransferBalance f db fromID toID amount).2.rows := by
  rcases TransferBalance_outcome f db fromID toID amount with h | h
  · refine ⟨by rw [ids, h.2.1, ids], h.2.2, ?_⟩
    rw [h.2.1]
    exact forall₂_same_row fromID toID db.rows
  · refine ⟨by rw [ids, h.2.1, setBalance_ids, setBalance_ids, ids], h.2.2.1, ?_⟩
    rw [h.2.1]
    exact setBalance_frame _ _ fromID toID db.rows

end Practice4
